import Mathlib

/-!
Shallow embedding of the Betaflight GPS Rescue module
(src/src/main/flight/gps_rescue.c) and verification of its key
behavioural properties.

Modelling conventions:
* C float and double values are modelled as exact rationals (ℚ); float
  literals such as 0.1f are taken at their decimal value.
* C integers are modelled as ℤ (signed) and ℕ (unsigned); the quantities
  involved stay far from the wrap-around boundaries.
* C float-to-integer conversion truncates toward zero (cTrunc below).
* pt1FilterGain(0.8f, dT) computes dT / (RC + dT) with RC = 1/(2*pi*0.8)
  irrational; RC enters the model as the input field pt1RC (its exact
  value is never load-bearing for any claim).
* sqrtf of the accelerometer magnitude (line 548) is likewise irrational;
  the externally sampled magnitude in g enters the model as the input
  field accMagnitudeSample.
* Function-local static variables and file-level globals are fields of
  ModuleState; each C function becomes a state transformer whose wrapper
  updates exactly the fields the C function writes.
* The preprocessor is taken with USE_MAG defined, as on targets with
  magnetometer support (lines 135-139, 480-487, 848-853).
* DEBUG_SET calls are no-ops and are dropped.
-/

namespace GpsRescue

attribute [local semireducible] Rat.mul Rat.add Rat.sub Rat.inv

/-- C constrainf from common/maths.h, exactly the C if-chain. -/
def constrainf (amt low high : ℚ) : ℚ :=
  if amt < low then low else if amt > high then high else amt

/-- C constrain on integers from common/maths.h. -/
def constrain (amt low high : ℤ) : ℤ :=
  if amt < low then low else if amt > high then high else amt

/-- C float-to-integer conversion: truncation toward zero
(Int.div is truncating division). -/
def cTrunc (x : ℚ) : ℤ :=
  Int.tdiv x.num (x.den : ℤ)

/-- GET_DIRECTION(isReversed) from common/maths.h: -1 when reversed, else 1. -/
def getDirection (isReversed : Bool) : ℚ :=
  if isReversed then -1 else 1

/-- pt1FilterGain(f_cut, dT) = dT / (RC + dT) with RC = 1/(2 pi f_cut);
the irrational RC is a parameter of the model. -/
def pt1FilterGain (rc dT : ℚ) : ℚ :=
  dT / (rc + dT)

/-- gpsRescueSanity_e, lines 55-59. -/
inductive gpsRescueSanity_e
  | RESCUE_SANITY_OFF
  | RESCUE_SANITY_ON
  | RESCUE_SANITY_FS_ONLY
  deriving DecidableEq

/-- rescuePhase_e, lines 61-72. -/
inductive rescuePhase_e
  | RESCUE_IDLE
  | RESCUE_INITIALIZE
  | RESCUE_ATTAIN_ALT
  | RESCUE_ROTATE
  | RESCUE_FLY_HOME
  | RESCUE_DESCENT
  | RESCUE_LANDING
  | RESCUE_ABORT
  | RESCUE_COMPLETE
  | RESCUE_DO_NOTHING
  deriving DecidableEq

/-- rescueFailureState_e, lines 74-83. -/
inductive rescueFailureState_e
  | RESCUE_HEALTHY
  | RESCUE_FLYAWAY
  | RESCUE_GPSLOST
  | RESCUE_LOWSATS
  | RESCUE_CRASH_FLIP_DETECTED
  | RESCUE_STALLED
  | RESCUE_TOO_CLOSE
  | RESCUE_NO_HOME_POINT
  deriving DecidableEq

/-- altitudeMode_e, lines 123-127. -/
inductive altitudeMode_e
  | MAX_ALT
  | FIXED_ALT
  | CURRENT_ALT
  deriving DecidableEq

open gpsRescueSanity_e rescuePhase_e rescueFailureState_e altitudeMode_e

/-- The integer value of each phase in the C enum (lines 61-72); the mag
gate at line 851 performs an ordered range query over these values. -/
def phaseIndex : rescuePhase_e → ℕ
  | RESCUE_IDLE => 0
  | RESCUE_INITIALIZE => 1
  | RESCUE_ATTAIN_ALT => 2
  | RESCUE_ROTATE => 3
  | RESCUE_FLY_HOME => 4
  | RESCUE_DESCENT => 5
  | RESCUE_LANDING => 6
  | RESCUE_ABORT => 7
  | RESCUE_COMPLETE => 8
  | RESCUE_DO_NOTHING => 9

/-- Constants, lines 129-133. -/
def GPS_RESCUE_MAX_YAW_RATE : ℚ := 90

def GPS_RESCUE_MIN_DESCENT_DIST_M : ℚ := 10

def GPS_RESCUE_MAX_ITERM_VELOCITY : ℚ := 1000

def GPS_RESCUE_MAX_ITERM_THROTTLE : ℚ := 200

def GPS_RESCUE_MAX_PITCH_RATE : ℚ := 3000

/-- gpsRescueConfig_t (read-only parameter group). -/
structure gpsRescueConfig_t where
  angle : ℕ
  initialAltitudeM : ℕ
  descentDistanceM : ℕ
  rescueGroundspeed : ℕ
  throttleP : ℕ
  throttleI : ℕ
  throttleD : ℕ
  velP : ℕ
  velI : ℕ
  velD : ℕ
  yawP : ℕ
  throttleMin : ℕ
  throttleMax : ℕ
  throttleHover : ℕ
  sanityChecks : gpsRescueSanity_e
  minRescueDth : ℕ
  allowArmingWithoutFix : Bool
  useMag : Bool
  targetLandingAltitudeM : ℕ
  altitudeMode : altitudeMode_e
  ascendRate : ℕ
  descendRate : ℕ
  rescueAltitudeBufferM : ℕ
  rollMix : ℕ

/-- PG_RESET_TEMPLATE defaults, lines 143-168 (useMag = GPS_RESCUE_USE_MAG
= true under USE_MAG). -/
def gpsRescueConfigDefault : gpsRescueConfig_t where
  angle := 32
  initialAltitudeM := 30
  descentDistanceM := 20
  rescueGroundspeed := 500
  throttleP := 20
  throttleI := 20
  throttleD := 10
  velP := 6
  velI := 20
  velD := 70
  yawP := 25
  throttleMin := 1100
  throttleMax := 1600
  throttleHover := 1275
  sanityChecks := RESCUE_SANITY_FS_ONLY
  minRescueDth := 30
  allowArmingWithoutFix := false
  useMag := true
  targetLandingAltitudeM := 5
  altitudeMode := MAX_ALT
  ascendRate := 500
  descendRate := 125
  rescueAltitudeBufferM := 10
  rollMix := 100

/-- rescueIntent_s, lines 85-94. -/
structure rescueIntent_s where
  returnAltitudeCm : ℚ
  targetAltitudeCm : ℚ
  targetVelocityCmS : ℕ
  pitchAngleLimitDeg : ℕ
  rollAngleLimitDeg : ℤ
  updateYaw : Bool
  descentDistanceM : ℚ
  secondsFailing : ℤ

/-- rescueSensorData_s, lines 96-113. -/
structure rescueSensorData_s where
  maxAltitudeCm : ℤ
  currentAltitudeCm : ℤ
  distanceToHomeCm : ℚ
  distanceToHomeM : ℚ
  groundSpeedCmS : ℕ
  directionToHome : ℤ
  accMagnitude : ℚ
  healthy : Bool
  errorAngle : ℚ
  gpsDataIntervalSeconds : ℚ
  velocityToHomeCmS : ℚ
  ascendStepCm : ℚ
  descendStepCm : ℚ
  maxPitchStep : ℚ
  filterK : ℚ
  absErrorAngle : ℚ

/-- The static locals of rescueAttainPosition (lines 238-247) together
with the file-level controller outputs rescueThrottle, rescueYaw and
gpsRescueAngle (lines 170-172): exactly the variables written by the
controller. -/
structure attainPositionVars where
  previousVelocityError : ℚ
  velocityI : ℚ
  previousVelocityD : ℚ
  previousPitchAdjustment : ℚ
  previousAltitudeError : ℚ
  throttleI : ℚ
  previousThrottleD : ℚ
  previousThrottleDVal : ℚ
  previousThrottleD2 : ℚ
  throttleAdjustment : ℤ
  rescueThrottle : ℚ
  rescueYaw : ℚ
  gpsRescueAnglePitch : ℚ
  gpsRescueAngleRoll : ℚ

/-- The static locals of performSanityChecks, lines 429-432. -/
structure sanityCheckVars where
  previousTimeUs : ℕ
  prevAltitudeCm : ℤ
  secondsLowSats : ℤ
  secondsDoingNothing : ℤ

/-- The static locals of sensorUpdate, lines 536-537. -/
structure sensorUpdateVars where
  previousDataTimeUs : ℕ
  prevDistanceToHomeCm : ℚ

/-- The static locals of checkGPSRescueIsAvailable, lines 601-605. -/
structure availabilityVars where
  previousTimeUs : ℕ
  secondsLowSats : ℤ
  lowsats : Bool
  noGPSfix : Bool

/-- The whole mutable state of the module: rescueState (lines 115-121,
176) plus the file globals magForceDisable and newGPSData (lines 173-174)
plus every function-static variable group. -/
structure ModuleState where
  phase : rescuePhase_e
  failure : rescueFailureState_e
  sensor : rescueSensorData_s
  intent : rescueIntent_s
  isAvailable : Bool
  ctl : attainPositionVars
  sanity : sanityCheckVars
  su : sensorUpdateVars
  av : availabilityVars
  magForceDisable : Bool
  newGPSData : Bool

/-- Everything the module reads from its external collaborators during
one call of updateGPSRescueState (flags, RC, attitude, GPS driver,
accelerometer, clock); see the includes and the extern uses in the file. -/
structure ExternalInputs where
  flightModeGpsRescue : Bool
  armed : Bool
  isAltitudeOffset : Bool
  rxIsReceivingSignal : Bool
  crashRecoveryModeActive : Bool
  rcCommandThrottle : ℚ
  getEstimatedAltitudeCm : ℤ
  attitudeYaw : ℤ
  getCosTiltAngle : ℚ
  gpsIsHealthy : Bool
  gpsGroundSpeed : ℕ
  gpsNumSat : ℕ
  gpsDistanceToHomeCm : ℚ
  gpsDirectionToHome : ℤ
  gpsMinimumSats : ℕ
  stateGpsFixHome : Bool
  stateGpsFix : Bool
  micros : ℕ
  sensorsMag : Bool
  yawControlReversed : Bool
  accMagnitudeSample : ℚ
  pt1RC : ℚ

/-- The external calls made by the module: setArmingDisabled(ARM_SWITCH)
and disarm(DISARM_REASON_GPS_RESCUE), lines 782-785 and 793-796. -/
structure Effects where
  setArmingDisabledArmSwitch : Bool
  disarmGpsRescue : Bool
  deriving DecidableEq

def noEffects : Effects :=
  { setArmingDisabledArmSwitch := false, disarmGpsRescue := false }

/-- rescueStart, lines 186-189. -/
def rescueStart (s : ModuleState) : ModuleState :=
  { s with phase := RESCUE_INITIALIZE }

/-- rescueStop, lines 191-194. -/
def rescueStop (s : ModuleState) : ModuleState :=
  { s with phase := RESCUE_IDLE }

/-- rescueNewGpsData, lines 181-184 (set-only notify from the GPS driver). -/
def rescueNewGpsData (s : ModuleState) : ModuleState :=
  { s with newGPSData := true }

/-- idleTasks, lines 197-233.  It writes sensor.maxAltitudeCm and (on new
GPS data) intent.targetAltitudeCm, intent.descentDistanceM and
intent.returnAltitudeCm; the core returns those two pieces. -/
def idleTasksCore (cfg : gpsRescueConfig_t) (inp : ExternalInputs)
    (s : ModuleState) : ℤ × rescueIntent_s :=
  if ¬ inp.armed then (0, s.intent)
  else if ¬ inp.isAltitudeOffset then (s.sensor.maxAltitudeCm, s.intent)
  else
    let maxAltitudeCm := max s.sensor.currentAltitudeCm s.sensor.maxAltitudeCm
    if s.newGPSData then
      let intent :=
        { s.intent with
          targetAltitudeCm := (s.sensor.currentAltitudeCm : ℚ)
          descentDistanceM := constrainf s.sensor.distanceToHomeM
            GPS_RESCUE_MIN_DESCENT_DIST_M (cfg.descentDistanceM : ℚ) }
      let initialAltitudeCm : ℚ := (cfg.initialAltitudeM : ℚ) * 100
      let rescueAltitudeBufferCm : ℚ := (cfg.rescueAltitudeBufferM : ℚ) * 100
      let returnAltitudeCm : ℚ :=
        match cfg.altitudeMode with
        | FIXED_ALT => initialAltitudeCm
        | CURRENT_ALT => (s.sensor.currentAltitudeCm : ℚ) + rescueAltitudeBufferCm
        | MAX_ALT => (maxAltitudeCm : ℚ) + rescueAltitudeBufferCm
      (maxAltitudeCm, { intent with returnAltitudeCm := returnAltitudeCm })
    else (maxAltitudeCm, s.intent)

/-- Lines 336-340: the velocity iTerm attenuation factor
targetVelocityCmS / targetVelocityCmS.  Both operands are the uint16_t
intent field, so this is C integer division (ℕ division here); when the
target velocity is zero the C expression is 0/0, undefined behaviour in
C and 0 under the total-division semantics used here (which is also what
ARM UDIV hardware returns). -/
def velocityIAttenuationFactor (targetVelocityCmS : ℕ) : ℕ :=
  targetVelocityCmS / targetVelocityCmS

/-- Lines 336-340: accumulate the velocity iTerm, multiply by the
attenuation factor, and clamp to plus/minus GPS_RESCUE_MAX_ITERM_VELOCITY. -/
def velocityIStep (velI : ℕ) (sampleIntervalNormaliseFactor velocityError
    velocityIPrev : ℚ) (targetVelocityCmS : ℕ) : ℚ :=
  let vI := velocityIPrev +
    (1/100) * (velI : ℚ) * velocityError * sampleIntervalNormaliseFactor
  let vI := vI * (velocityIAttenuationFactor targetVelocityCmS : ℚ)
  constrainf vI (-GPS_RESCUE_MAX_ITERM_VELOCITY) GPS_RESCUE_MAX_ITERM_VELOCITY

/-- rescueAttainPosition, lines 235-425: the active-phase controller body
(lines 283-425), entered when the phase is none of IDLE / INITIALIZE /
DO_NOTHING and new GPS data arrived.  Returns the new values of all the
variables the controller writes. -/
def attainPositionActive (cfg : gpsRescueConfig_t) (inp : ExternalInputs)
    (s : ModuleState) : attainPositionVars :=
  let sampleIntervalNormaliseFactor := s.sensor.gpsDataIntervalSeconds * 10
  -- Heading / yaw controller, lines 298-314
  let rescueYaw0 := constrainf (s.sensor.errorAngle * (cfg.yawP : ℚ) * (1/10))
    (-GPS_RESCUE_MAX_YAW_RATE) GPS_RESCUE_MAX_YAW_RATE
  let rollMixAttenuator := constrainf (1 - |rescueYaw0| * (1/100)) 0 1
  let rollAdjustment := - rescueYaw0 * (cfg.rollMix : ℚ) * rollMixAttenuator
  let gpsRescueAngleRoll := constrainf rollAdjustment
    (-(s.intent.rollAngleLimitDeg : ℚ) * 100) ((s.intent.rollAngleLimitDeg : ℚ) * 100)
  let rescueYaw1 := rescueYaw0 * getDirection inp.yawControlReversed
  let rescueYaw2 := if ¬ s.intent.updateYaw then 0 else rescueYaw1
  -- Pitch / velocity controller, lines 322-367
  let velocityTargetLimiter := constrainf ((60 - s.sensor.absErrorAngle) / 60) 0 1
  let velocityError :=
    (s.intent.targetVelocityCmS : ℚ) * velocityTargetLimiter - s.sensor.velocityToHomeCmS
  let velocityP := velocityError * (cfg.velP : ℚ)
  let velocityI := velocityIStep cfg.velI sampleIntervalNormaliseFactor
    velocityError s.ctl.velocityI s.intent.targetVelocityCmS
  let velocityD0 := (velocityError - s.ctl.previousVelocityError) / sampleIntervalNormaliseFactor
  let velocityD1 := s.ctl.previousVelocityD + s.sensor.filterK * (velocityD0 - s.ctl.previousVelocityD)
  let velocityD := velocityD1 * (cfg.velD : ℚ)
  let pitchAdjustment0 := velocityP + velocityD + velocityI
  let pitchAdjustmentDelta := pitchAdjustment0 - s.ctl.previousPitchAdjustment
  let pitchAdjustment1 :=
    if pitchAdjustmentDelta > s.sensor.maxPitchStep then
      s.ctl.previousPitchAdjustment + s.sensor.maxPitchStep
    else if pitchAdjustmentDelta < - s.sensor.maxPitchStep then
      s.ctl.previousPitchAdjustment - s.sensor.maxPitchStep
    else pitchAdjustment0
  let movingAvgPitchAdjustment := (1/2) * (s.ctl.previousPitchAdjustment + pitchAdjustment1)
  let gpsRescueAnglePitch := constrainf movingAvgPitchAdjustment
    (-(s.intent.pitchAngleLimitDeg : ℚ) * 100) ((s.intent.pitchAngleLimitDeg : ℚ) * 100)
  -- Altitude (throttle) controller, lines 381-422
  let altitudeError := (s.intent.targetAltitudeCm - (s.sensor.currentAltitudeCm : ℚ)) * (1/100)
  let throttleP := (cfg.throttleP : ℚ) * altitudeError
  let throttleI := constrainf
    (s.ctl.throttleI + (1/100) * (cfg.throttleI : ℚ) * altitudeError * sampleIntervalNormaliseFactor)
    (-GPS_RESCUE_MAX_ITERM_THROTTLE) GPS_RESCUE_MAX_ITERM_THROTTLE
  let throttleD0 := (altitudeError - s.ctl.previousAltitudeError) / sampleIntervalNormaliseFactor
  let throttleDJerk := 2 * (throttleD0 - s.ctl.previousThrottleD)
  let throttleD1 := throttleD0 + throttleDJerk
  let movingAvgAltitudeD := (1/2) * (s.ctl.previousThrottleDVal + throttleD1)
  let throttleD3 := s.ctl.previousThrottleD2 + s.sensor.filterK * (movingAvgAltitudeD - s.ctl.previousThrottleD2)
  let throttleD := 10 * (cfg.throttleD : ℚ) * throttleD3
  let tiltAdjustment := (1 - inp.getCosTiltAngle) * ((cfg.throttleHover : ℚ) - 1000)
  let throttleAdjustment := cTrunc (throttleP + throttleI + throttleD + tiltAdjustment)
  let rescueThrottle := constrainf ((cfg.throttleHover : ℚ) + (throttleAdjustment : ℚ))
    (cfg.throttleMin : ℚ) (cfg.throttleMax : ℚ)
  { previousVelocityError := velocityError
    velocityI := velocityI
    previousVelocityD := velocityD1
    previousPitchAdjustment := pitchAdjustment1
    previousAltitudeError := altitudeError
    throttleI := throttleI
    previousThrottleD := throttleD0
    previousThrottleDVal := throttleD1
    previousThrottleD2 := throttleD3
    throttleAdjustment := throttleAdjustment
    rescueThrottle := rescueThrottle
    rescueYaw := rescueYaw2
    gpsRescueAnglePitch := gpsRescueAnglePitch
    gpsRescueAngleRoll := gpsRescueAngleRoll }

/-- rescueAttainPosition, lines 235-425: phase dispatch (the C switch at
lines 249-277 and the newGPSData early return at 279-281), then the
active body. -/
def rescueAttainPosition (cfg : gpsRescueConfig_t) (inp : ExternalInputs)
    (s : ModuleState) : ModuleState :=
  if s.phase = RESCUE_IDLE then
    { s with ctl := { s.ctl with
        gpsRescueAnglePitch := 0
        gpsRescueAngleRoll := 0
        rescueThrottle := inp.rcCommandThrottle } }
  else if s.phase = RESCUE_INITIALIZE then
    { s with ctl := { s.ctl with
        previousVelocityError := 0
        velocityI := 0
        previousVelocityD := 0
        previousPitchAdjustment := 0
        previousAltitudeError := 0
        throttleI := 0
        previousThrottleD := 0
        previousThrottleDVal := 0
        previousThrottleD2 := 0
        throttleAdjustment := 0 } }
  else if s.phase = RESCUE_DO_NOTHING then
    { s with ctl := { s.ctl with
        gpsRescueAnglePitch := 0
        gpsRescueAngleRoll := 0
        rescueThrottle := (cfg.throttleHover : ℚ) } }
  else if ¬ s.newGPSData then s
  else { s with ctl := attainPositionActive cfg inp s }

/-- Lines 449-457: apply the sanity policy when the failure state is not
healthy.  Note that in the C code this runs BEFORE the failure detection
of lines 459-467. -/
def sanityApplyPolicy (cfg : gpsRescueConfig_t) (hardFailsafe : Bool)
    (failure : rescueFailureState_e) (phase : rescuePhase_e) : rescuePhase_e :=
  if failure ≠ RESCUE_HEALTHY then
    if cfg.sanityChecks = RESCUE_SANITY_ON then RESCUE_ABORT
    else if cfg.sanityChecks = RESCUE_SANITY_FS_ONLY ∧ hardFailsafe then RESCUE_ABORT
    else RESCUE_DO_NOTHING
  else phase

/-- Lines 459-467: crash-flip and GPS-health failure detection. -/
def sanityUpdateFailure (crashActive healthy : Bool)
    (failure : rescueFailureState_e) : rescueFailureState_e :=
  let failure := if crashActive then RESCUE_CRASH_FLIP_DETECTED else failure
  if ¬ healthy then RESCUE_GPSLOST else failure

/-- Lines 476-492: the 1 Hz FLY_HOME stall check.  Returns the new
(secondsFailing, magForceDisable, failure). -/
def sanityFlyHomeCheck (sensorsMag useMag : Bool) (velocityToHomeCmS : ℚ)
    (targetVelocityCmS : ℕ) (secondsFailing : ℤ) (magForceDisable : Bool)
    (failure : rescueFailureState_e) : ℤ × Bool × rescueFailureState_e :=
  let sf := constrain (secondsFailing +
    (if velocityToHomeCmS < (1/2) * (targetVelocityCmS : ℚ) then 1 else -1)) 0 20
  if sf = 20 then
    if sensorsMag ∧ useMag ∧ ¬ magForceDisable then (0, true, failure)
    else (sf, magForceDisable, RESCUE_STALLED)
  else (sf, magForceDisable, failure)

/-- Lines 495-520: the 1 Hz climb / descent / do-nothing checks.  Returns
the new (secondsFailing, secondsDoingNothing, phase). -/
def sanityAltitudeChecks (cfg : gpsRescueConfig_t) (phase : rescuePhase_e)
    (currentAltitudeCm prevAltitudeCm secondsFailing secondsDoingNothing : ℤ) :
    ℤ × ℤ × rescuePhase_e :=
  if phase = RESCUE_ATTAIN_ALT then
    let sf := constrain (secondsFailing +
      (if ((currentAltitudeCm - prevAltitudeCm : ℤ) : ℚ) > (1/2) * (cfg.ascendRate : ℚ)
        then -1 else 1)) 0 10
    (sf, secondsDoingNothing, if sf = 10 then RESCUE_ABORT else phase)
  else if phase = RESCUE_LANDING ∨ phase = RESCUE_DESCENT then
    let sf := constrain (secondsFailing +
      (if ((prevAltitudeCm - currentAltitudeCm : ℤ) : ℚ) > (1/2) * (cfg.descendRate : ℚ)
        then -1 else 1)) 0 10
    (sf, secondsDoingNothing, if sf = 10 then RESCUE_ABORT else phase)
  else if phase = RESCUE_DO_NOTHING then
    let sdn := min (secondsDoingNothing + 1) 10
    (secondsFailing, sdn, if sdn = 10 then RESCUE_ABORT else phase)
  else (secondsFailing, secondsDoingNothing, phase)

/-- The fields performSanityChecks may write. -/
structure SanityResult where
  phase : rescuePhase_e
  failure : rescueFailureState_e
  secondsFailing : ℤ
  sanity : sanityCheckVars
  magForceDisable : Bool

/-- performSanityChecks, lines 427-532.  IDLE resets the failure state,
INITIALIZE resets the watchdog statics; otherwise the policy is applied
first (449-457), then crash-flip and GPS-loss detection (459-467), then
the 1 Hz gate (470-474) and the 1 Hz counters (476-528). -/
def performSanityChecksCore (cfg : gpsRescueConfig_t) (inp : ExternalInputs)
    (s : ModuleState) : SanityResult :=
  if s.phase = RESCUE_IDLE then
    { phase := s.phase, failure := RESCUE_HEALTHY
      secondsFailing := s.intent.secondsFailing, sanity := s.sanity
      magForceDisable := s.magForceDisable }
  else if s.phase = RESCUE_INITIALIZE then
    { phase := s.phase, failure := s.failure
      secondsFailing := s.intent.secondsFailing
      sanity := { previousTimeUs := inp.micros
                  prevAltitudeCm := s.sensor.currentAltitudeCm
                  secondsLowSats := 5, secondsDoingNothing := 0 }
      magForceDisable := s.magForceDisable }
  else
    let hardFailsafe := ! inp.rxIsReceivingSignal
    let phase1 := sanityApplyPolicy cfg hardFailsafe s.failure s.phase
    let failure1 := sanityUpdateFailure inp.crashRecoveryModeActive
      s.sensor.healthy s.failure
    let dTime : ℤ := (inp.micros : ℤ) - (s.sanity.previousTimeUs : ℤ)
    if dTime < 1000000 then
      { phase := phase1, failure := failure1
        secondsFailing := s.intent.secondsFailing, sanity := s.sanity
        magForceDisable := s.magForceDisable }
    else
      let fh :=
        if phase1 = RESCUE_FLY_HOME then
          sanityFlyHomeCheck inp.sensorsMag cfg.useMag s.sensor.velocityToHomeCmS
            s.intent.targetVelocityCmS s.intent.secondsFailing s.magForceDisable failure1
        else (s.intent.secondsFailing, s.magForceDisable, failure1)
      let alt := sanityAltitudeChecks cfg phase1 s.sensor.currentAltitudeCm
        s.sanity.prevAltitudeCm fh.1 s.sanity.secondsDoingNothing
      let sls := constrain (s.sanity.secondsLowSats +
        (if inp.gpsNumSat < inp.gpsMinimumSats then 1 else -1)) 0 10
      { phase := alt.2.2
        failure := if sls = 10 then RESCUE_LOWSATS else fh.2.2
        secondsFailing := alt.1
        sanity := { previousTimeUs := inp.micros
                    prevAltitudeCm := s.sensor.currentAltitudeCm
                    secondsLowSats := sls
                    secondsDoingNothing := alt.2.1 }
        magForceDisable := fh.2.1 }

/-- performSanityChecks wrapper: writes exactly the fields the C function
mutates. -/
def performSanityChecks (cfg : gpsRescueConfig_t) (inp : ExternalInputs)
    (s : ModuleState) : ModuleState :=
  let r := performSanityChecksCore cfg inp s
  { s with phase := r.phase, failure := r.failure
           intent := { s.intent with secondsFailing := r.secondsFailing }
           sanity := r.sanity, magForceDisable := r.magForceDisable }

/-- sensorUpdate, lines 534-589.  Altitude and GPS health are sampled
every tick; in LANDING the accelerometer magnitude is also sampled every
tick (lines 546-549); the remaining fields only update on new GPS data. -/
def sensorUpdateCore (cfg : gpsRescueConfig_t) (inp : ExternalInputs)
    (s : ModuleState) : rescueSensorData_s × sensorUpdateVars :=
  let sensor := { s.sensor with
    currentAltitudeCm := inp.getEstimatedAltitudeCm
    healthy := inp.gpsIsHealthy }
  let sensor :=
    if s.phase = RESCUE_LANDING then
      { sensor with accMagnitude := inp.accMagnitudeSample }
    else sensor
  if ¬ s.newGPSData then (sensor, s.su)
  else
    let distanceToHomeCm := inp.gpsDistanceToHomeCm
    let distanceToHomeM := distanceToHomeCm / 100
    let errorAngle0 := ((inp.attitudeYaw - inp.gpsDirectionToHome : ℤ) : ℚ) * (1/10)
    let errorAngle :=
      if errorAngle0 ≤ -180 then errorAngle0 + 360
      else if errorAngle0 > 180 then errorAngle0 - 360
      else errorAngle0
    let gpsDataIntervalUs : ℤ := (inp.micros : ℤ) - (s.su.previousDataTimeUs : ℤ)
    let gpsDataIntervalSeconds :=
      constrainf ((gpsDataIntervalUs : ℚ) * (1/1000000)) (1/100) 1
    let filterK := pt1FilterGain inp.pt1RC gpsDataIntervalSeconds
    let velocityToHomeCmS :=
      (s.su.prevDistanceToHomeCm - distanceToHomeCm) / gpsDataIntervalSeconds
    ({ sensor with
        distanceToHomeCm := distanceToHomeCm
        distanceToHomeM := distanceToHomeM
        groundSpeedCmS := inp.gpsGroundSpeed
        directionToHome := inp.gpsDirectionToHome
        errorAngle := errorAngle
        absErrorAngle := |errorAngle|
        gpsDataIntervalSeconds := gpsDataIntervalSeconds
        filterK := filterK
        velocityToHomeCmS := velocityToHomeCmS
        ascendStepCm := gpsDataIntervalSeconds * (cfg.ascendRate : ℚ)
        descendStepCm := gpsDataIntervalSeconds * (cfg.descendRate : ℚ)
        maxPitchStep := gpsDataIntervalSeconds * GPS_RESCUE_MAX_PITCH_RATE },
     { previousDataTimeUs := inp.micros, prevDistanceToHomeCm := distanceToHomeCm })

/-- sensorUpdate wrapper. -/
def sensorUpdate (cfg : gpsRescueConfig_t) (inp : ExternalInputs)
    (s : ModuleState) : ModuleState :=
  { s with sensor := (sensorUpdateCore cfg inp s).1, su := (sensorUpdateCore cfg inp s).2 }

/-- checkGPSRescueIsAvailable, lines 599-639. -/
def checkGPSRescueIsAvailableCore (inp : ExternalInputs) (s : ModuleState) :
    Bool × availabilityVars :=
  if ¬ inp.gpsIsHealthy ∨ ¬ inp.stateGpsFixHome then (false, s.av)
  else
    let dTime : ℤ := (inp.micros : ℤ) - (s.av.previousTimeUs : ℤ)
    if dTime < 1000000 then
      (if s.av.noGPSfix ∨ s.av.lowsats then false else true, s.av)
    else
      let noGPSfix := ! inp.stateGpsFix
      let secondsLowSats := constrain (s.av.secondsLowSats +
        (if inp.gpsNumSat < inp.gpsMinimumSats then 1 else -1)) 0 2
      let lowsats : Bool := decide (secondsLowSats = 2)
      let result : Bool := inp.stateGpsFix && ! lowsats
      (result, { previousTimeUs := inp.micros, secondsLowSats := secondsLowSats
                 lowsats := lowsats, noGPSfix := noGPSfix })

/-- checkGPSRescueIsAvailable wrapper. -/
def checkGPSRescueIsAvailable (inp : ExternalInputs) (s : ModuleState) :
    Bool × ModuleState :=
  ((checkGPSRescueIsAvailableCore inp s).1,
   { s with av := (checkGPSRescueIsAvailableCore inp s).2 })

/-- The fields the phase switch of updateGPSRescueState (lines 660-804)
may write, plus the local startedLow and the external calls. -/
structure SwitchResult where
  phase : rescuePhase_e
  failure : rescueFailureState_e
  intent : rescueIntent_s
  maxAltitudeCm : ℤ
  startedLow : Bool
  effects : Effects

/-- A SwitchResult that changes nothing. -/
def mkSwitchResult (s : ModuleState) (startedLow : Bool) : SwitchResult :=
  { phase := s.phase, failure := s.failure, intent := s.intent
    maxAltitudeCm := s.sensor.maxAltitudeCm, startedLow := startedLow
    effects := noEffects }

/-- The phase switch of updateGPSRescueState, lines 656-804.  halfAngle is
computed at line 656.  startedLow mirrors the C local declared at line
657: it is a fresh local of every updateGPSRescueState call, initialised
to true, written only by the INITIALIZE case (line 686) and read only by
the ATTAIN_ALT case (line 700) -- of which at most one runs per call. -/
def rescuePhaseSwitchCore (cfg : gpsRescueConfig_t) (inp : ExternalInputs)
    (startedLow : Bool) (s : ModuleState) : SwitchResult :=
  let halfAngle : ℕ := cfg.angle / 2
  if s.phase = RESCUE_IDLE then
    -- lines 661-667: idleTasks
    let r := idleTasksCore cfg inp s
    { mkSwitchResult s startedLow with maxAltitudeCm := r.1, intent := r.2 }
  else if s.phase = RESCUE_INITIALIZE then
    -- lines 671-692
    if ¬ inp.stateGpsFixHome then
      { mkSwitchResult s startedLow with failure := RESCUE_NO_HOME_POINT }
    else if s.sensor.distanceToHomeM < (cfg.minRescueDth : ℚ) then
      { mkSwitchResult s startedLow with
          phase := RESCUE_LANDING
          intent := { s.intent with
            targetAltitudeCm := (s.sensor.currentAltitudeCm : ℚ) - s.sensor.descendStepCm } }
    else
      { mkSwitchResult s startedLow with
          phase := RESCUE_ATTAIN_ALT
          intent := { s.intent with
            secondsFailing := 0, updateYaw := true, targetVelocityCmS := 0
            pitchAngleLimitDeg := halfAngle, rollAngleLimitDeg := 0 }
          startedLow := decide ((s.sensor.currentAltitudeCm : ℚ) ≤ s.intent.returnAltitudeCm) }
  else if s.phase = RESCUE_ATTAIN_ALT then
    -- lines 694-716
    if s.newGPSData then
      if startedLow then
        if s.intent.targetAltitudeCm < s.intent.returnAltitudeCm then
          { mkSwitchResult s startedLow with
              intent := { s.intent with
                targetAltitudeCm := s.intent.targetAltitudeCm + s.sensor.ascendStepCm } }
        else if (s.sensor.currentAltitudeCm : ℚ) > s.intent.returnAltitudeCm then
          { mkSwitchResult s startedLow with
              phase := RESCUE_ROTATE
              intent := { s.intent with targetAltitudeCm := s.intent.returnAltitudeCm } }
        else mkSwitchResult s startedLow
      else
        if s.intent.targetAltitudeCm > s.intent.returnAltitudeCm then
          { mkSwitchResult s startedLow with
              intent := { s.intent with
                targetAltitudeCm := s.intent.targetAltitudeCm - s.sensor.descendStepCm } }
        else if (s.sensor.currentAltitudeCm : ℚ) < s.intent.returnAltitudeCm then
          { mkSwitchResult s startedLow with
              phase := RESCUE_ROTATE
              intent := { s.intent with targetAltitudeCm := s.intent.returnAltitudeCm } }
        else mkSwitchResult s startedLow
    else mkSwitchResult s startedLow
  else if s.phase = RESCUE_ROTATE then
    -- lines 718-736
    if s.newGPSData then
      if s.sensor.absErrorAngle < 60 then
        let intent1 := { s.intent with
          targetVelocityCmS := cfg.rescueGroundspeed
          pitchAngleLimitDeg := cfg.angle }
        if s.sensor.absErrorAngle < 15 then
          { mkSwitchResult s startedLow with
              phase := RESCUE_FLY_HOME
              intent := { intent1 with secondsFailing := 0, rollAngleLimitDeg := (cfg.angle : ℤ) } }
        else { mkSwitchResult s startedLow with intent := intent1 }
      else mkSwitchResult s startedLow
    else mkSwitchResult s startedLow
  else if s.phase = RESCUE_FLY_HOME then
    -- lines 738-746
    if s.newGPSData ∧ s.sensor.distanceToHomeM ≤ s.intent.descentDistanceM then
      { mkSwitchResult s startedLow with
          phase := RESCUE_DESCENT
          intent := { s.intent with secondsFailing := 0 } }
    else mkSwitchResult s startedLow
  else if s.phase = RESCUE_DESCENT then
    -- lines 748-774
    if s.newGPSData then
      let targetLandingAltitudeCm : ℤ := 100 * (cfg.targetLandingAltitudeM : ℤ)
      if s.sensor.currentAltitudeCm < targetLandingAltitudeCm then
        { mkSwitchResult s startedLow with
            phase := RESCUE_LANDING
            intent := { s.intent with
              targetAltitudeCm := s.intent.targetAltitudeCm - s.sensor.descendStepCm
              secondsFailing := 0, targetVelocityCmS := 0
              pitchAngleLimitDeg := halfAngle, rollAngleLimitDeg := 0 } }
      else
        let distanceToLandingAreaM := max (s.sensor.distanceToHomeM - 2) 0
        let proximityToLandingArea :=
          constrainf (distanceToLandingAreaM / s.intent.descentDistanceM) 0 1
        { mkSwitchResult s startedLow with
            intent := { s.intent with
              targetAltitudeCm := s.intent.targetAltitudeCm -
                s.sensor.descendStepCm * (1 + proximityToLandingArea)
              targetVelocityCmS := (cTrunc ((cfg.rescueGroundspeed : ℚ) * proximityToLandingArea)).toNat
              rollAngleLimitDeg := cTrunc ((cfg.angle : ℚ) * proximityToLandingArea) } }
    else mkSwitchResult s startedLow
  else if s.phase = RESCUE_LANDING then
    -- lines 776-787
    let base :=
      if s.newGPSData then
        { mkSwitchResult s startedLow with
            intent := { s.intent with
              targetAltitudeCm := s.intent.targetAltitudeCm - s.sensor.descendStepCm } }
      else mkSwitchResult s startedLow
    if s.sensor.accMagnitude > 2 then
      { base with
          phase := RESCUE_COMPLETE
          effects := { setArmingDisabledArmSwitch := true, disarmGpsRescue := true } }
    else base
  else if s.phase = RESCUE_COMPLETE then
    -- lines 789-791
    { mkSwitchResult s startedLow with phase := RESCUE_IDLE }
  else if s.phase = RESCUE_ABORT then
    -- lines 793-797
    { mkSwitchResult s startedLow with
        phase := RESCUE_IDLE
        effects := { setArmingDisabledArmSwitch := true, disarmGpsRescue := true } }
  else
    -- RESCUE_DO_NOTHING and default, lines 799-803
    mkSwitchResult s startedLow

/-- Phase switch wrapper: writes exactly the fields the switch mutates. -/
def rescuePhaseSwitch (cfg : gpsRescueConfig_t) (inp : ExternalInputs)
    (startedLow : Bool) (s : ModuleState) : ModuleState × Bool × Effects :=
  let r := rescuePhaseSwitchCore cfg inp startedLow s
  ({ s with
      phase := r.phase, failure := r.failure, intent := r.intent
      sensor := { s.sensor with maxAltitudeCm := r.maxAltitudeCm } },
   r.startedLow, r.effects)

/-- updateGPSRescueState, lines 641-814: the per-tick entry point.  Note
that the C local startedLow (line 657) is initialised to true on every
call, so the switch always receives true; the boolean the INITIALIZE case
computes dies with the call. -/
def updateGPSRescueState (cfg : gpsRescueConfig_t) (inp : ExternalInputs)
    (s0 : ModuleState) : ModuleState × Effects :=
  let s :=
    if ¬ inp.flightModeGpsRescue then rescueStop s0
    else if s0.phase = RESCUE_IDLE then
      performSanityChecks cfg inp (rescueAttainPosition cfg inp (rescueStart s0))
    else s0
  let s := sensorUpdate cfg inp s
  let avail := checkGPSRescueIsAvailable inp s
  let s := { avail.2 with isAvailable := avail.1 }
  let sw := rescuePhaseSwitch cfg inp true s
  let s := performSanityChecks cfg inp sw.1
  let s := rescueAttainPosition cfg inp s
  ({ s with newGPSData := false }, sw.2.2)

/-- gpsRescueDisableMag, lines 848-853. -/
def gpsRescueDisableMag (cfg : gpsRescueConfig_t) (s : ModuleState) : Bool :=
  (! cfg.useMag || s.magForceDisable) &&
    decide (phaseIndex RESCUE_INITIALIZE ≤ phaseIndex s.phase) &&
    decide (phaseIndex s.phase ≤ phaseIndex RESCUE_LANDING)

/-- gpsRescueGetYawRate, lines 816-819. -/
def gpsRescueGetYawRate (s : ModuleState) : ℚ :=
  s.ctl.rescueYaw

/-- gpsRescueIsAvailable, lines 837-840. -/
def gpsRescueIsAvailable (s : ModuleState) : Bool :=
  s.isAvailable

/-- A neutral sensor snapshot used as the basis of concrete test states. -/
def sensor0 : rescueSensorData_s where
  maxAltitudeCm := 0
  currentAltitudeCm := 0
  distanceToHomeCm := 0
  distanceToHomeM := 0
  groundSpeedCmS := 0
  directionToHome := 0
  accMagnitude := 0
  healthy := true
  errorAngle := 0
  gpsDataIntervalSeconds := 1/10
  velocityToHomeCmS := 0
  ascendStepCm := 50
  descendStepCm := 25/2
  maxPitchStep := 300
  filterK := 1/3
  absErrorAngle := 0

/-- A neutral intent record. -/
def intent0 : rescueIntent_s where
  returnAltitudeCm := 0
  targetAltitudeCm := 0
  targetVelocityCmS := 0
  pitchAngleLimitDeg := 16
  rollAngleLimitDeg := 0
  updateYaw := true
  descentDistanceM := 20
  secondsFailing := 0

/-- Controller variables all zero (the boot state of the C statics). -/
def ctl0 : attainPositionVars where
  previousVelocityError := 0
  velocityI := 0
  previousVelocityD := 0
  previousPitchAdjustment := 0
  previousAltitudeError := 0
  throttleI := 0
  previousThrottleD := 0
  previousThrottleDVal := 0
  previousThrottleD2 := 0
  throttleAdjustment := 0
  rescueThrottle := 0
  rescueYaw := 0
  gpsRescueAnglePitch := 0
  gpsRescueAngleRoll := 0

/-- Watchdog statics at boot. -/
def sanity0 : sanityCheckVars where
  previousTimeUs := 0
  prevAltitudeCm := 0
  secondsLowSats := 0
  secondsDoingNothing := 0

/-- Sensor-update statics at boot. -/
def su0 : sensorUpdateVars where
  previousDataTimeUs := 0
  prevDistanceToHomeCm := 0

/-- Availability statics at boot. -/
def av0 : availabilityVars where
  previousTimeUs := 0
  secondsLowSats := 0
  lowsats := false
  noGPSfix := false

/-- A concrete module state: idle, healthy, all statics neutral. -/
def state0 : ModuleState where
  phase := RESCUE_IDLE
  failure := RESCUE_HEALTHY
  sensor := sensor0
  intent := intent0
  isAvailable := false
  ctl := ctl0
  sanity := sanity0
  su := su0
  av := av0
  magForceDisable := false
  newGPSData := false

/-- A concrete benign input sample. -/
def inputs0 : ExternalInputs where
  flightModeGpsRescue := false
  armed := true
  isAltitudeOffset := true
  rxIsReceivingSignal := true
  crashRecoveryModeActive := false
  rcCommandThrottle := 1500
  getEstimatedAltitudeCm := 0
  attitudeYaw := 0
  getCosTiltAngle := 1
  gpsIsHealthy := true
  gpsGroundSpeed := 0
  gpsNumSat := 10
  gpsDistanceToHomeCm := 0
  gpsDirectionToHome := 0
  gpsMinimumSats := 8
  stateGpsFixHome := true
  stateGpsFix := true
  micros := 100000
  sensorsMag := true
  yawControlReversed := false
  accMagnitudeSample := 1
  pt1RC := 199/1000

/-- The default configuration with sanityChecks = ON. -/
def cfgSanityOn : gpsRescueConfig_t :=
  { gpsRescueConfigDefault with sanityChecks := RESCUE_SANITY_ON }

/-- Mid-rescue state for the startedLow scenario: the craft entered
ATTAIN_ALT above the return altitude (current 5000 cm, return 3500 cm,
target tracking current from IDLE), and a new GPS sample is pending. -/
def sC1 : ModuleState :=
  { state0 with
      phase := RESCUE_ATTAIN_ALT
      newGPSData := true
      sensor := { sensor0 with currentAltitudeCm := 5000 }
      intent := { intent0 with targetAltitudeCm := 5000, returnAltitudeCm := 3500 } }

/-- Inputs for the startedLow scenario: rescue mode on, altitude 5000 cm. -/
def inpC1 : ExternalInputs :=
  { inputs0 with flightModeGpsRescue := true, getEstimatedAltitudeCm := 5000 }

/-- Inputs with the pilot throttle channel at 2000 us. -/
def inpC2 : ExternalInputs :=
  { inputs0 with rcCommandThrottle := 2000 }

/-- Fly-home state whose GPS sensor has just become unhealthy. -/
def sC3 : ModuleState :=
  { state0 with
      phase := RESCUE_FLY_HOME
      sensor := { sensor0 with healthy := false } }

/-- Inputs inside the 1 Hz window of the watchdog. -/
def inpC3 : ExternalInputs :=
  { inputs0 with micros := 0 }

/-- Idle state with a pending GPS sample and target altitude 0. -/
def sC4 : ModuleState :=
  { state0 with newGPSData := true }

/-- Inputs with the altitude estimate at 10000 cm. -/
def inpC4 : ExternalInputs :=
  { inputs0 with getEstimatedAltitudeCm := 10000 }

/-- Landing state about to sample a hard impact. -/
def sC6 : ModuleState :=
  { state0 with phase := RESCUE_LANDING }

/-- Inputs during landing with a 3 g accelerometer sample. -/
def inpC6 : ExternalInputs :=
  { inputs0 with flightModeGpsRescue := true, accMagnitudeSample := 3 }

/-- Fly-home state about to hit 20 seconds of stall: velocity toward home
100 cm/s against a 500 cm/s target, counter at 19. -/
def sC7 : ModuleState :=
  { state0 with
      phase := RESCUE_FLY_HOME
      sensor := { sensor0 with velocityToHomeCmS := 100 }
      intent := { intent0 with targetVelocityCmS := 500, secondsFailing := 19 } }

/-- Inputs two seconds after the last 1 Hz watchdog evaluation. -/
def inpC7 : ExternalInputs :=
  { inputs0 with micros := 2000000 }

/-- Idle state whose target altitude (300 cm) no longer matches the
current altitude estimate. -/
def sC8 : ModuleState :=
  { state0 with intent := { intent0 with targetAltitudeCm := 300 } }

/-- Disarmed tick inputs with the altitude estimate at 500 cm. -/
def inpC8 : ExternalInputs :=
  { inputs0 with armed := false, getEstimatedAltitudeCm := 500 }

/-- Idle state carrying secondsFailing = 7 left over from an earlier
rescue, with a pending GPS sample. -/
def sC9 : ModuleState :=
  { state0 with
      newGPSData := true
      intent := { intent0 with secondsFailing := 7 } }

/-- Inputs that enter rescue 10 m from home (inside minRescueDth = 30 m). -/
def inpC9 : ExternalInputs :=
  { inputs0 with flightModeGpsRescue := true, gpsDistanceToHomeCm := 1000 }

/-- INITIALIZE state 10 m from home carrying secondsFailing = 7. -/
def sC9w : ModuleState :=
  { state0 with
      phase := RESCUE_INITIALIZE
      newGPSData := true
      sensor := { sensor0 with distanceToHomeM := 10 }
      intent := { intent0 with secondsFailing := 7 } }

/-- Fly-home state in which the stall mitigation has already force-disabled
the magnetometer. -/
def sC10 : ModuleState :=
  { state0 with phase := RESCUE_FLY_HOME, magForceDisable := true }

/-- Landing state with a pending GPS sample. -/
def sC4w : ModuleState :=
  { state0 with phase := RESCUE_LANDING, newGPSData := true }

/-- The controller output / accumulator bounds of the spec (section 8,
property 1), minus the throttle bound which is stated separately. -/
@[reducible] def ctlBounds (c : attainPositionVars) : Prop :=
  |c.rescueYaw| ≤ GPS_RESCUE_MAX_YAW_RATE ∧
  |c.velocityI| ≤ GPS_RESCUE_MAX_ITERM_VELOCITY ∧
  |c.throttleI| ≤ GPS_RESCUE_MAX_ITERM_THROTTLE

theorem constrainf_mem (amt low high : ℚ) (h : low ≤ high) :
    low ≤ constrainf amt low high ∧ constrainf amt low high ≤ high := by
  unfold constrainf
  split_ifs with h1 h2
  · exact ⟨le_refl _, h⟩
  · exact ⟨h, le_refl _⟩
  · exact ⟨le_of_not_lt h1, le_of_not_lt h2⟩

theorem abs_constrainf_le (x a : ℚ) (h : 0 ≤ a) :
    |constrainf x (-a) a| ≤ a := by
  have hm : -a ≤ a := by linarith
  have := constrainf_mem x (-a) a hm
  exact abs_le.mpr ⟨this.1, this.2⟩

theorem abs_getDirection (b : Bool) : |getDirection b| = 1 := by
  cases b <;> simp [getDirection]

theorem velocityIStep_abs_le (velI : ℕ) (k e vI : ℚ) (n : ℕ) :
    |velocityIStep velI k e vI n| ≤ GPS_RESCUE_MAX_ITERM_VELOCITY := by
  unfold velocityIStep
  have h0 : (0 : ℚ) ≤ GPS_RESCUE_MAX_ITERM_VELOCITY := by
    norm_num [GPS_RESCUE_MAX_ITERM_VELOCITY]
  exact abs_constrainf_le _ _ h0

theorem rescueAttainPosition_shape (cfg : gpsRescueConfig_t)
    (inp : ExternalInputs) (s : ModuleState) :
    ∃ c, rescueAttainPosition cfg inp s = { s with ctl := c } := by
  unfold rescueAttainPosition
  repeat' split
  all_goals exact ⟨_, rfl⟩

theorem performSanityChecks_shape (cfg : gpsRescueConfig_t)
    (inp : ExternalInputs) (s : ModuleState) :
    performSanityChecks cfg inp s =
      { s with phase := (performSanityChecksCore cfg inp s).phase
               failure := (performSanityChecksCore cfg inp s).failure
               intent := { s.intent with
                 secondsFailing := (performSanityChecksCore cfg inp s).secondsFailing }
               sanity := (performSanityChecksCore cfg inp s).sanity
               magForceDisable := (performSanityChecksCore cfg inp s).magForceDisable } := rfl

theorem sensorUpdate_shape (cfg : gpsRescueConfig_t) (inp : ExternalInputs)
    (s : ModuleState) :
    sensorUpdate cfg inp s =
      { s with sensor := (sensorUpdateCore cfg inp s).1
               su := (sensorUpdateCore cfg inp s).2 } := rfl

theorem rescuePhaseSwitch_shape (cfg : gpsRescueConfig_t) (inp : ExternalInputs)
    (b : Bool) (s : ModuleState) :
    rescuePhaseSwitch cfg inp b s =
      ({ s with phase := (rescuePhaseSwitchCore cfg inp b s).phase
                failure := (rescuePhaseSwitchCore cfg inp b s).failure
                intent := (rescuePhaseSwitchCore cfg inp b s).intent
                sensor := { s.sensor with
                  maxAltitudeCm := (rescuePhaseSwitchCore cfg inp b s).maxAltitudeCm } },
       (rescuePhaseSwitchCore cfg inp b s).startedLow,
       (rescuePhaseSwitchCore cfg inp b s).effects) := rfl

theorem checkGPSRescueIsAvailable_shape (inp : ExternalInputs) (s : ModuleState) :
    checkGPSRescueIsAvailable inp s =
      ((checkGPSRescueIsAvailableCore inp s).1,
       { s with av := (checkGPSRescueIsAvailableCore inp s).2 }) := rfl

theorem attainPositionActive_ctlBounds (cfg : gpsRescueConfig_t)
    (inp : ExternalInputs) (s : ModuleState) :
    ctlBounds (attainPositionActive cfg inp s) := by
  unfold ctlBounds attainPositionActive
  dsimp only
  refine ⟨?_, velocityIStep_abs_le _ _ _ _ _, ?_⟩
  · split
    · norm_num [GPS_RESCUE_MAX_YAW_RATE]
    · rw [abs_mul, abs_getDirection, mul_one]
      exact abs_constrainf_le _ _ (by norm_num [GPS_RESCUE_MAX_YAW_RATE])
  · exact abs_constrainf_le _ _ (by norm_num [GPS_RESCUE_MAX_ITERM_THROTTLE])

theorem attainPositionActive_throttle (cfg : gpsRescueConfig_t)
    (inp : ExternalInputs) (s : ModuleState)
    (h : (cfg.throttleMin : ℚ) ≤ (cfg.throttleMax : ℚ)) :
    (cfg.throttleMin : ℚ) ≤ (attainPositionActive cfg inp s).rescueThrottle ∧
    (attainPositionActive cfg inp s).rescueThrottle ≤ (cfg.throttleMax : ℚ) := by
  unfold attainPositionActive
  dsimp only
  exact constrainf_mem _ _ _ h

theorem rescueAttainPosition_active (cfg : gpsRescueConfig_t)
    (inp : ExternalInputs) (s : ModuleState)
    (h1 : s.phase ≠ RESCUE_IDLE) (h2 : s.phase ≠ RESCUE_INITIALIZE)
    (h3 : s.phase ≠ RESCUE_DO_NOTHING) (h4 : s.newGPSData = true) :
    rescueAttainPosition cfg inp s = { s with ctl := attainPositionActive cfg inp s } := by
  unfold rescueAttainPosition
  rw [if_neg h1, if_neg h2, if_neg h3, if_neg (by simp [h4])]

theorem rescueAttainPosition_ctlBounds_preserved (cfg : gpsRescueConfig_t)
    (inp : ExternalInputs) (s : ModuleState) (h : ctlBounds s.ctl) :
    ctlBounds (rescueAttainPosition cfg inp s).ctl := by
  unfold rescueAttainPosition
  split
  · exact ⟨h.1, h.2.1, h.2.2⟩
  · split
    · refine ⟨h.1, ?_, ?_⟩ <;>
        norm_num [GPS_RESCUE_MAX_ITERM_VELOCITY, GPS_RESCUE_MAX_ITERM_THROTTLE]
    · split
      · exact ⟨h.1, h.2.1, h.2.2⟩
      · split
        · exact h
        · exact attainPositionActive_ctlBounds cfg inp s

theorem updateGPSRescueState_ctlBounds (cfg : gpsRescueConfig_t)
    (inp : ExternalInputs) (s : ModuleState) (h : ctlBounds s.ctl) :
    ctlBounds (updateGPSRescueState cfg inp s).1.ctl := by
  unfold updateGPSRescueState
  dsimp only
  apply rescueAttainPosition_ctlBounds_preserved
  rw [performSanityChecks_shape, rescuePhaseSwitch_shape]
  dsimp only
  rw [checkGPSRescueIsAvailable_shape, sensorUpdate_shape]
  dsimp only
  split
  · exact h
  · split
    · rw [performSanityChecks_shape]
      dsimp only
      exact rescueAttainPosition_ctlBounds_preserved _ _ _ h
    · exact h

/-- Claim C2 (amended): whenever the controller runs its active path (a
phase other than IDLE, INITIALIZE and DO_NOTHING, with a new GPS sample,
under throttleMin ≤ throttleMax) the outputs satisfy rescueThrottle ∈
[throttleMin, throttleMax], |rescueYaw| ≤ 90, |velocityI| ≤ 1000 and
|throttleI| ≤ 200; and the yaw / iTerm bounds, once true, are preserved
by every tick.  (In IDLE rescueThrottle is the raw pilot throttle channel
and can exceed throttleMax; see the counterexample.) -/
theorem controller_output_bounds (cfg : gpsRescueConfig_t) (inp : ExternalInputs)
    (s : ModuleState) (hmm : (cfg.throttleMin : ℚ) ≤ (cfg.throttleMax : ℚ)) :
    (s.phase ≠ RESCUE_IDLE → s.phase ≠ RESCUE_INITIALIZE →
      s.phase ≠ RESCUE_DO_NOTHING → s.newGPSData = true →
      ctlBounds (rescueAttainPosition cfg inp s).ctl ∧
      (cfg.throttleMin : ℚ) ≤ (rescueAttainPosition cfg inp s).ctl.rescueThrottle ∧
      (rescueAttainPosition cfg inp s).ctl.rescueThrottle ≤ (cfg.throttleMax : ℚ)) ∧
    (ctlBounds s.ctl → ctlBounds (updateGPSRescueState cfg inp s).1.ctl) := by
  constructor
  · intro h1 h2 h3 h4
    rw [rescueAttainPosition_active cfg inp s h1 h2 h3 h4]
    exact ⟨attainPositionActive_ctlBounds cfg inp s,
           attainPositionActive_throttle cfg inp s hmm⟩
  · exact updateGPSRescueState_ctlBounds cfg inp s

/-- Claim C2 counterexample: a tick that stays in IDLE with the pilot
throttle channel at 2000 ends with rescueThrottle = 2000, above the
default throttleMax = 1600, refuting the claimed bound in IDLE. -/
theorem idle_throttle_exceeds_max :
    (updateGPSRescueState gpsRescueConfigDefault inpC2 state0).1.ctl.rescueThrottle = 2000 ∧
    ¬ ((updateGPSRescueState gpsRescueConfigDefault inpC2 state0).1.ctl.rescueThrottle
        ≤ (gpsRescueConfigDefault.throttleMax : ℚ)) := by
  decide

/-- Witness for controller_output_bounds at a concrete input. -/
theorem controller_output_bounds_witness :
    ctlBounds (updateGPSRescueState gpsRescueConfigDefault inputs0 state0).1.ctl :=
  (controller_output_bounds gpsRescueConfigDefault inputs0 state0 (by decide)).2 (by decide)

/-- Claim C5 (amended): for every nonzero targetVelocityCmS the integer
division targetVelocityCmS / targetVelocityCmS equals 1 and the
attenuation line leaves velocityI unchanged; at targetVelocityCmS = 0
(reachable: ATTAIN_ALT and LANDING both set the target velocity to zero)
the C expression is 0/0, undefined behaviour in C and 0 under total
integer-division semantics, which zeroes velocityI. -/
theorem velocityI_attenuation_identity (velI : ℕ) (k e vI : ℚ) (n : ℕ)
    (h : n ≠ 0) :
    velocityIAttenuationFactor n = 1 ∧
    velocityIStep velI k e vI n =
      constrainf (vI + (1/100) * (velI : ℚ) * e * k)
        (-GPS_RESCUE_MAX_ITERM_VELOCITY) GPS_RESCUE_MAX_ITERM_VELOCITY := by
  have hf : velocityIAttenuationFactor n = 1 :=
    Nat.div_self (Nat.pos_of_ne_zero h)
  refine ⟨hf, ?_⟩
  unfold velocityIStep
  rw [hf]
  norm_num

/-- Claim C5 counterexample: at targetVelocityCmS = 0 the factor is 0
(0/0 under total division; undefined behaviour in C), and the iTerm update
maps velocityI = 100 to 0 rather than leaving it unchanged; with the same
arguments and target 500 it stays 100. -/
theorem velocityI_attenuation_zero_target :
    velocityIAttenuationFactor 0 = 0 ∧
    velocityIStep 20 1 0 100 0 = 0 ∧
    velocityIStep 20 1 0 100 500 = 100 := by
  decide

/-- Witness for velocityI_attenuation_identity at a concrete input. -/
theorem velocityI_attenuation_identity_witness :
    velocityIAttenuationFactor 500 = 1 ∧
    velocityIStep 20 1 0 100 500 =
      constrainf (100 + (1/100) * ((20 : ℕ) : ℚ) * 0 * 1)
        (-GPS_RESCUE_MAX_ITERM_VELOCITY) GPS_RESCUE_MAX_ITERM_VELOCITY :=
  velocityI_attenuation_identity 20 1 0 100 500 (by decide)

/-- Claim C1 (code bug evidence): a rescue that entered ATTAIN_ALT from
INITIALIZE above the return altitude (current 5000 cm > return 3500 cm,
target tracking current at 5000 cm) does NOT step the target down by
descendStepCm on the next GPS sample: because the C local startedLow
(line 657) is re-initialised to true on every updateGPSRescueState call,
the very next tick snaps targetAltitudeCm to returnAltitudeCm and enters
ROTATE while currentAltitudeCm is still far above returnAltitudeCm. -/
theorem attain_alt_high_start_snaps_immediately :
    (3500 : ℚ) < (sC1.sensor.currentAltitudeCm : ℚ) ∧
    sC1.intent.returnAltitudeCm = 3500 ∧
    sC1.intent.targetAltitudeCm = 5000 ∧
    (updateGPSRescueState gpsRescueConfigDefault inpC1 sC1).1.phase = RESCUE_ROTATE ∧
    (updateGPSRescueState gpsRescueConfigDefault inpC1 sC1).1.intent.targetAltitudeCm = 3500 := by
  decide

/-- Claim C4 (amended): per GPS sample the phase switch changes
targetAltitudeCm by exactly one descendStepCm in LANDING, by at most
2 * descendStepCm in DESCENT (the proximity factor doubles the step at
most), and in ATTAIN_ALT either by one ascendStepCm, or by snapping to
returnAltitudeCm, or not at all.  In IDLE the target is set to the
current altitude, a change not bounded by the steps (counterexample). -/
theorem target_altitude_step_per_phase (cfg : gpsRescueConfig_t)
    (inp : ExternalInputs) (s : ModuleState) (hgps : s.newGPSData = true) :
    (s.phase = RESCUE_LANDING →
      (rescuePhaseSwitch cfg inp true s).1.intent.targetAltitudeCm =
        s.intent.targetAltitudeCm - s.sensor.descendStepCm) ∧
    (s.phase = RESCUE_DESCENT → 0 ≤ s.sensor.descendStepCm →
      |(rescuePhaseSwitch cfg inp true s).1.intent.targetAltitudeCm -
        s.intent.targetAltitudeCm| ≤ 2 * s.sensor.descendStepCm) ∧
    (s.phase = RESCUE_ATTAIN_ALT →
      ((rescuePhaseSwitch cfg inp true s).1.intent.targetAltitudeCm =
          s.intent.targetAltitudeCm + s.sensor.ascendStepCm ∨
       (rescuePhaseSwitch cfg inp true s).1.intent.targetAltitudeCm =
          s.intent.returnAltitudeCm ∨
       (rescuePhaseSwitch cfg inp true s).1.intent.targetAltitudeCm =
          s.intent.targetAltitudeCm)) := by
  rw [rescuePhaseSwitch_shape]
  dsimp only
  refine ⟨?_, ?_, ?_⟩
  · intro hp
    simp only [rescuePhaseSwitchCore, hp, hgps, reduceCtorEq, if_false, if_true,
      ite_false, ite_true, reduceIte]
    split <;> rfl
  · intro hp hstep
    simp only [rescuePhaseSwitchCore, hp, hgps, reduceCtorEq, if_false, if_true,
      ite_false, ite_true, reduceIte]
    split
    · dsimp only
      rw [sub_sub_cancel_left, abs_neg, abs_of_nonneg hstep]
      linarith
    · dsimp only
      have hprox := constrainf_mem
        (max (s.sensor.distanceToHomeM - 2) 0 / s.intent.descentDistanceM) 0 1
        (by norm_num)
      rw [sub_sub_cancel_left, abs_neg,
        abs_of_nonneg (by nlinarith [hprox.1, hprox.2])]
      nlinarith [hprox.1, hprox.2]
  · intro hp
    simp only [rescuePhaseSwitchCore, hp, hgps, reduceCtorEq, if_false, if_true,
      ite_false, ite_true, reduceIte]
    split
    · exact Or.inl rfl
    · split
      · exact Or.inr (Or.inl rfl)
      · exact Or.inr (Or.inr rfl)

/-- Claim C4 counterexample: an IDLE tick with a new GPS sample sets the
target altitude to the current altitude estimate (0 -> 10000 cm), a jump
far above max(ascendStepCm, descendStepCm) = max(50, 12.5). -/
theorem idle_target_jump_exceeds_step :
    (updateGPSRescueState gpsRescueConfigDefault inpC4 sC4).1.intent.targetAltitudeCm = 10000 ∧
    sC4.intent.targetAltitudeCm = 0 ∧
    (updateGPSRescueState gpsRescueConfigDefault inpC4 sC4).1.sensor.ascendStepCm = 50 ∧
    (updateGPSRescueState gpsRescueConfigDefault inpC4 sC4).1.sensor.descendStepCm = 25/2 ∧
    ¬ (|(updateGPSRescueState gpsRescueConfigDefault inpC4 sC4).1.intent.targetAltitudeCm -
          sC4.intent.targetAltitudeCm| ≤
        max ((updateGPSRescueState gpsRescueConfigDefault inpC4 sC4).1.sensor.ascendStepCm)
          ((updateGPSRescueState gpsRescueConfigDefault inpC4 sC4).1.sensor.descendStepCm)) := by
  decide

/-- Witness for target_altitude_step_per_phase at a concrete input. -/
theorem target_altitude_step_per_phase_witness :
    (rescuePhaseSwitch gpsRescueConfigDefault inputs0 true sC4w).1.intent.targetAltitudeCm =
      sC4w.intent.targetAltitudeCm - sC4w.sensor.descendStepCm :=
  (target_altitude_step_per_phase gpsRescueConfigDefault inputs0 sC4w rfl).1 rfl

/-- Claim C9 (amended): the phase switch resets secondsFailing to 0 on
the INITIALIZE -> ATTAIN_ALT, ROTATE -> FLY_HOME, FLY_HOME -> DESCENT and
DESCENT -> LANDING transitions, but the direct INITIALIZE -> LANDING
transition taken when distanceToHomeM < minRescueDth does NOT reset it:
landing then starts with whatever value was left in the slot. -/
theorem secondsFailing_reset_on_entry (cfg : gpsRescueConfig_t)
    (inp : ExternalInputs) (s : ModuleState) :
    (s.phase = RESCUE_INITIALIZE → inp.stateGpsFixHome = true →
      s.sensor.distanceToHomeM < (cfg.minRescueDth : ℚ) →
      (rescuePhaseSwitch cfg inp true s).1.phase = RESCUE_LANDING ∧
      (rescuePhaseSwitch cfg inp true s).1.intent.secondsFailing =
        s.intent.secondsFailing) ∧
    (s.phase = RESCUE_INITIALIZE → inp.stateGpsFixHome = true →
      ¬ (s.sensor.distanceToHomeM < (cfg.minRescueDth : ℚ)) →
      (rescuePhaseSwitch cfg inp true s).1.phase = RESCUE_ATTAIN_ALT ∧
      (rescuePhaseSwitch cfg inp true s).1.intent.secondsFailing = 0) ∧
    (s.phase = RESCUE_ROTATE → s.newGPSData = true →
      s.sensor.absErrorAngle < 15 →
      (rescuePhaseSwitch cfg inp true s).1.phase = RESCUE_FLY_HOME ∧
      (rescuePhaseSwitch cfg inp true s).1.intent.secondsFailing = 0) ∧
    (s.phase = RESCUE_FLY_HOME → s.newGPSData = true →
      s.sensor.distanceToHomeM ≤ s.intent.descentDistanceM →
      (rescuePhaseSwitch cfg inp true s).1.phase = RESCUE_DESCENT ∧
      (rescuePhaseSwitch cfg inp true s).1.intent.secondsFailing = 0) ∧
    (s.phase = RESCUE_DESCENT → s.newGPSData = true →
      s.sensor.currentAltitudeCm < 100 * (cfg.targetLandingAltitudeM : ℤ) →
      (rescuePhaseSwitch cfg inp true s).1.phase = RESCUE_LANDING ∧
      (rescuePhaseSwitch cfg inp true s).1.intent.secondsFailing = 0) := by
  rw [rescuePhaseSwitch_shape]
  dsimp only
  refine ⟨?_, ?_, ?_, ?_, ?_⟩
  · intro hp hfix hdist
    simp only [rescuePhaseSwitchCore, hp, hfix, hdist, reduceCtorEq, if_false,
      if_true, ite_false, ite_true, reduceIte, not_true_eq_false]
    all_goals constructor <;> trivial
  · intro hp hfix hdist
    simp only [rescuePhaseSwitchCore, hp, hfix, hdist, reduceCtorEq, if_false,
      if_true, ite_false, ite_true, reduceIte, not_true_eq_false]
    all_goals constructor <;> trivial
  · intro hp hgps h15
    have h60 : s.sensor.absErrorAngle < 60 := lt_trans h15 (by norm_num)
    simp only [rescuePhaseSwitchCore, hp, hgps, h60, h15, reduceCtorEq, if_false,
      if_true, ite_false, ite_true, reduceIte]
    all_goals constructor <;> trivial
  · intro hp hgps hle
    simp only [rescuePhaseSwitchCore, hp, hgps, hle, reduceCtorEq, if_false,
      if_true, ite_false, ite_true, reduceIte, and_self, true_and]
  · intro hp hgps hlt
    simp only [rescuePhaseSwitchCore, hp, hgps, hlt, reduceCtorEq, if_false,
      if_true, ite_false, ite_true, reduceIte]
    all_goals constructor <;> trivial

/-- Claim C9 counterexample: a rescue started 10 m from home (inside
minRescueDth = 30 m) with secondsFailing = 7 left over ends the tick in
LANDING with secondsFailing still 7, not 0. -/
theorem too_close_landing_keeps_counter :
    (updateGPSRescueState gpsRescueConfigDefault inpC9 sC9).1.phase = RESCUE_LANDING ∧
    (updateGPSRescueState gpsRescueConfigDefault inpC9 sC9).1.intent.secondsFailing = 7 ∧
    ¬ ((updateGPSRescueState gpsRescueConfigDefault inpC9 sC9).1.intent.secondsFailing = 0) := by
  decide

/-- Witness for secondsFailing_reset_on_entry at a concrete input. -/
theorem secondsFailing_reset_on_entry_witness :
    (rescuePhaseSwitch gpsRescueConfigDefault inputs0 true sC9w).1.phase = RESCUE_LANDING ∧
    (rescuePhaseSwitch gpsRescueConfigDefault inputs0 true sC9w).1.intent.secondsFailing =
      sC9w.intent.secondsFailing :=
  (secondsFailing_reset_on_entry gpsRescueConfigDefault inputs0 sC9w).1 rfl rfl (by decide)

/-- Claim C3 (amended): a watchdog pass outside IDLE / INITIALIZE with an
unhealthy GPS sensor sets failure := GPSLOST in that same pass, but the
sanity policy runs at the START of each pass (lines 449-457 precede the
detection at 459-467), so the phase is unchanged at the end of that pass;
it is the NEXT watchdog pass that moves the phase to ABORT under
sanityChecks = ON, to ABORT under FS_ONLY with the radio link dead, and
to DO_NOTHING otherwise. -/
theorem gpslost_policy_next_pass (cfg : gpsRescueConfig_t)
    (inp inp' : ExternalInputs) (s : ModuleState)
    (hp1 : s.phase ≠ RESCUE_IDLE) (hp2 : s.phase ≠ RESCUE_INITIALIZE)
    (hf : s.failure = RESCUE_HEALTHY)
    (hh : s.sensor.healthy = false)
    (hc : inp.crashRecoveryModeActive = false)
    (hg : (inp.micros : ℤ) - (s.sanity.previousTimeUs : ℤ) < 1000000)
    (hc' : inp'.crashRecoveryModeActive = false)
    (hg' : (inp'.micros : ℤ) - (s.sanity.previousTimeUs : ℤ) < 1000000) :
    (performSanityChecks cfg inp s).failure = RESCUE_GPSLOST ∧
    (performSanityChecks cfg inp s).phase = s.phase ∧
    (cfg.sanityChecks = RESCUE_SANITY_ON →
      (performSanityChecks cfg inp' (performSanityChecks cfg inp s)).phase = RESCUE_ABORT) ∧
    (cfg.sanityChecks = RESCUE_SANITY_FS_ONLY → inp'.rxIsReceivingSignal = false →
      (performSanityChecks cfg inp' (performSanityChecks cfg inp s)).phase = RESCUE_ABORT) ∧
    (cfg.sanityChecks = RESCUE_SANITY_OFF →
      (performSanityChecks cfg inp' (performSanityChecks cfg inp s)).phase = RESCUE_DO_NOTHING) ∧
    (cfg.sanityChecks = RESCUE_SANITY_FS_ONLY → inp'.rxIsReceivingSignal = true →
      (performSanityChecks cfg inp' (performSanityChecks cfg inp s)).phase = RESCUE_DO_NOTHING) := by
  have e1 : performSanityChecks cfg inp s = { s with failure := RESCUE_GPSLOST } := by
    unfold performSanityChecks performSanityChecksCore sanityApplyPolicy sanityUpdateFailure
    simp only [hp1, hp2, hf, hh, hc, reduceCtorEq, if_false, if_true, ite_false,
      ite_true, reduceIte, ne_eq, not_true_eq_false, Bool.false_eq_true,
      not_false_eq_true]
    rw [if_pos hg]
  rw [e1]
  refine ⟨rfl, rfl, ?_, ?_, ?_, ?_⟩
  · intro hcfg
    unfold performSanityChecks performSanityChecksCore sanityApplyPolicy sanityUpdateFailure
    simp only [hp1, hp2, hcfg, hh, hc', reduceCtorEq, if_false, if_true, ite_false,
      ite_true, reduceIte, ne_eq, not_true_eq_false, Bool.false_eq_true,
      not_false_eq_true]
    rw [if_pos hg']
  · intro hcfg hrx
    unfold performSanityChecks performSanityChecksCore sanityApplyPolicy sanityUpdateFailure
    simp only [hp1, hp2, hcfg, hrx, hh, hc', reduceCtorEq, if_false, if_true,
      ite_false, ite_true, reduceIte, ne_eq, not_true_eq_false, Bool.false_eq_true,
      not_false_eq_true, Bool.not_false, and_true, and_self]
    rw [if_pos hg']
  · intro hcfg
    unfold performSanityChecks performSanityChecksCore sanityApplyPolicy sanityUpdateFailure
    simp only [hp1, hp2, hcfg, hh, hc', reduceCtorEq, if_false, if_true, ite_false,
      ite_true, reduceIte, ne_eq, not_true_eq_false, Bool.false_eq_true,
      not_false_eq_true, false_and]
    rw [if_pos hg']
  · intro hcfg hrx
    unfold performSanityChecks performSanityChecksCore sanityApplyPolicy sanityUpdateFailure
    simp only [hp1, hp2, hcfg, hrx, hh, hc', reduceCtorEq, if_false, if_true,
      ite_false, ite_true, reduceIte, ne_eq, not_true_eq_false, Bool.false_eq_true,
      not_false_eq_true, Bool.not_true, and_false, and_self]
    rw [if_pos hg']

/-- Claim C3 counterexample: with sanityChecks = ON, an unhealthy-GPS
watchdog pass in FLY_HOME sets failure = GPSLOST but leaves the phase at
FLY_HOME (not ABORT); only the following pass aborts. -/
theorem gpslost_same_pass_no_abort :
    (performSanityChecks cfgSanityOn inpC3 sC3).failure = RESCUE_GPSLOST ∧
    (performSanityChecks cfgSanityOn inpC3 sC3).phase = RESCUE_FLY_HOME ∧
    ¬ ((performSanityChecks cfgSanityOn inpC3 sC3).phase = RESCUE_ABORT) ∧
    (performSanityChecks cfgSanityOn inpC3 (performSanityChecks cfgSanityOn inpC3 sC3)).phase
      = RESCUE_ABORT := by
  decide

/-- Witness for gpslost_policy_next_pass at a concrete input. -/
theorem gpslost_policy_next_pass_witness :
    (performSanityChecks cfgSanityOn inpC3 sC3).failure = RESCUE_GPSLOST :=
  (gpslost_policy_next_pass cfgSanityOn inpC3 inpC3 sC3 (by decide) (by decide)
    rfl rfl rfl (by decide) rfl (by decide)).1

/-- Claim C7: in FLY_HOME each 1 Hz watchdog evaluation moves
secondsFailing by +1 when velocityToHomeCmS < 0.5 * targetVelocityCmS and
by -1 otherwise, clamped to [0, 20]; on reaching 20 with the magnetometer
present, enabled and not yet force-disabled it sets magForceDisable and
resets secondsFailing to 0 instead of failing, and on reaching 20 in any
other configuration (in particular once magForceDisable is already set)
it sets failure := STALLED. -/
theorem flyhome_stall_watchdog (cfg : gpsRescueConfig_t) (inp : ExternalInputs)
    (s : ModuleState)
    (hp : s.phase = RESCUE_FLY_HOME)
    (hf : s.failure = RESCUE_HEALTHY)
    (hh : s.sensor.healthy = true)
    (hc : inp.crashRecoveryModeActive = false)
    (hg : ¬ ((inp.micros : ℤ) - (s.sanity.previousTimeUs : ℤ) < 1000000))
    (hsat : ¬ (inp.gpsNumSat < inp.gpsMinimumSats))
    (hsls : s.sanity.secondsLowSats ≤ 10) :
    (¬ (constrain (s.intent.secondsFailing +
          (if s.sensor.velocityToHomeCmS < (1/2) * (s.intent.targetVelocityCmS : ℚ)
            then 1 else -1)) 0 20 = 20) →
      (performSanityChecks cfg inp s).intent.secondsFailing =
        constrain (s.intent.secondsFailing +
          (if s.sensor.velocityToHomeCmS < (1/2) * (s.intent.targetVelocityCmS : ℚ)
            then 1 else -1)) 0 20 ∧
      (performSanityChecks cfg inp s).magForceDisable = s.magForceDisable ∧
      (performSanityChecks cfg inp s).failure = RESCUE_HEALTHY ∧
      (performSanityChecks cfg inp s).phase = RESCUE_FLY_HOME) ∧
    (constrain (s.intent.secondsFailing +
        (if s.sensor.velocityToHomeCmS < (1/2) * (s.intent.targetVelocityCmS : ℚ)
          then 1 else -1)) 0 20 = 20 →
      inp.sensorsMag = true → cfg.useMag = true → s.magForceDisable = false →
      (performSanityChecks cfg inp s).magForceDisable = true ∧
      (performSanityChecks cfg inp s).intent.secondsFailing = 0 ∧
      (performSanityChecks cfg inp s).failure = RESCUE_HEALTHY ∧
      (performSanityChecks cfg inp s).phase = RESCUE_FLY_HOME) ∧
    (constrain (s.intent.secondsFailing +
        (if s.sensor.velocityToHomeCmS < (1/2) * (s.intent.targetVelocityCmS : ℚ)
          then 1 else -1)) 0 20 = 20 →
      ¬ (inp.sensorsMag = true ∧ cfg.useMag = true ∧ ¬ (s.magForceDisable = true)) →
      (performSanityChecks cfg inp s).failure = RESCUE_STALLED ∧
      (performSanityChecks cfg inp s).intent.secondsFailing = 20 ∧
      (performSanityChecks cfg inp s).magForceDisable = s.magForceDisable ∧
      (performSanityChecks cfg inp s).phase = RESCUE_FLY_HOME) := by
  have hsls10 : ¬ (constrain (s.sanity.secondsLowSats + -1) 0 10 = 10) := by
    unfold constrain
    split_ifs <;> omega
  refine ⟨?_, ?_, ?_⟩
  · intro h20
    unfold performSanityChecks performSanityChecksCore sanityApplyPolicy
      sanityUpdateFailure sanityFlyHomeCheck sanityAltitudeChecks
    simp only [hp, hf, hh, hc, reduceCtorEq, if_false, if_true, ite_false,
      ite_true, reduceIte, ne_eq, not_true_eq_false, not_false_eq_true,
      Bool.false_eq_true, or_self, false_or, or_false]
    rw [if_neg hg, if_neg h20, if_neg hsat, if_neg hsls10]
    exact ⟨rfl, rfl, rfl, rfl⟩
  · intro h20 hm hu hmg
    unfold performSanityChecks performSanityChecksCore sanityApplyPolicy
      sanityUpdateFailure sanityFlyHomeCheck sanityAltitudeChecks
    simp only [hp, hf, hh, hc, hm, hu, hmg, reduceCtorEq, if_false, if_true,
      ite_false, ite_true, reduceIte, ne_eq, not_true_eq_false,
      not_false_eq_true, Bool.false_eq_true, true_and, and_true, and_self,
      or_self, false_or, or_false]
    rw [if_neg hg, if_pos h20, if_neg hsat, if_neg hsls10]
    exact ⟨rfl, rfl, rfl, rfl⟩
  · intro h20 hnot
    unfold performSanityChecks performSanityChecksCore sanityApplyPolicy
      sanityUpdateFailure sanityFlyHomeCheck sanityAltitudeChecks
    simp only [hp, hf, hh, hc, reduceCtorEq, if_false, if_true, ite_false,
      ite_true, reduceIte, ne_eq, not_true_eq_false, not_false_eq_true,
      Bool.false_eq_true, or_self, false_or, or_false]
    rw [if_neg hg, if_pos h20, if_neg hnot, if_neg hsat, if_neg hsls10]
    exact ⟨rfl, h20, rfl, rfl⟩

/-- Witness for flyhome_stall_watchdog at a concrete input: counter at 19,
velocity 100 < 250 = half the target, mag present and enabled: the pass
sets magForceDisable and resets the counter. -/
theorem flyhome_stall_watchdog_witness :
    (performSanityChecks gpsRescueConfigDefault inpC7 sC7).magForceDisable = true ∧
    (performSanityChecks gpsRescueConfigDefault inpC7 sC7).intent.secondsFailing = 0 ∧
    (performSanityChecks gpsRescueConfigDefault inpC7 sC7).failure = RESCUE_HEALTHY ∧
    (performSanityChecks gpsRescueConfigDefault inpC7 sC7).phase = RESCUE_FLY_HOME :=
  (flyhome_stall_watchdog gpsRescueConfigDefault inpC7 sC7 rfl rfl rfl rfl
    (by decide) (by decide) (by decide)).2.1 (by decide) rfl rfl rfl

theorem sensorUpdateCore_currentAltitude (cfg : gpsRescueConfig_t)
    (inp : ExternalInputs) (s : ModuleState) :
    (sensorUpdateCore cfg inp s).1.currentAltitudeCm = inp.getEstimatedAltitudeCm := by
  unfold sensorUpdateCore
  repeat' split
  all_goals rfl

theorem sensorUpdateCore_newGPS_acc (cfg : gpsRescueConfig_t)
    (inp : ExternalInputs) (s : ModuleState) (hp : s.phase = RESCUE_LANDING) :
    (sensorUpdateCore cfg inp s).1.accMagnitude = inp.accMagnitudeSample := by
  unfold sensorUpdateCore
  repeat' split
  all_goals simp_all

theorem rescuePhaseSwitchCore_idle (cfg : gpsRescueConfig_t)
    (inp : ExternalInputs) (b : Bool) (s : ModuleState)
    (hp : s.phase = RESCUE_IDLE) :
    rescuePhaseSwitchCore cfg inp b s =
      { mkSwitchResult s b with
          maxAltitudeCm := (idleTasksCore cfg inp s).1
          intent := (idleTasksCore cfg inp s).2 } := by
  unfold rescuePhaseSwitchCore
  rw [if_pos hp]

theorem performSanityChecksCore_idle (cfg : gpsRescueConfig_t)
    (inp : ExternalInputs) (s : ModuleState) (hp : s.phase = RESCUE_IDLE) :
    performSanityChecksCore cfg inp s =
      { phase := s.phase, failure := RESCUE_HEALTHY
        secondsFailing := s.intent.secondsFailing, sanity := s.sanity
        magForceDisable := s.magForceDisable } := by
  unfold performSanityChecksCore
  rw [if_pos hp]

theorem idleTasksCore_target (cfg : gpsRescueConfig_t) (inp : ExternalInputs)
    (s : ModuleState) (ha : inp.armed = true) (ho : inp.isAltitudeOffset = true)
    (hn : s.newGPSData = true) :
    (idleTasksCore cfg inp s).2.targetAltitudeCm = (s.sensor.currentAltitudeCm : ℚ) := by
  unfold idleTasksCore
  rw [if_neg (by simp [ha]), if_neg (by simp [ho]), if_pos hn]

/-- Claim C8 (amended): every tick taken with the rescue-mode flag off
ends in IDLE with failure = HEALTHY; the second half of the claimed
invariant, targetAltitudeCm = currentAltitudeCm, additionally requires an
armed tick with the altitude offset applied and a new GPS sample (idle
bookkeeping skips the target update otherwise; see the counterexample). -/
theorem idle_tick_invariants (cfg : gpsRescueConfig_t) (inp : ExternalInputs)
    (s : ModuleState) (hmode : inp.flightModeGpsRescue = false) :
    (updateGPSRescueState cfg inp s).1.phase = RESCUE_IDLE ∧
    (updateGPSRescueState cfg inp s).1.failure = RESCUE_HEALTHY ∧
    (inp.armed = true → inp.isAltitudeOffset = true → s.newGPSData = true →
      (updateGPSRescueState cfg inp s).1.intent.targetAltitudeCm =
        ((updateGPSRescueState cfg inp s).1.sensor.currentAltitudeCm : ℚ)) := by
  unfold updateGPSRescueState rescueStop
  rw [if_pos (by simp [hmode])]
  dsimp only
  rw [sensorUpdate_shape, checkGPSRescueIsAvailable_shape]
  dsimp only
  rw [rescuePhaseSwitch_shape]
  dsimp only
  rw [rescuePhaseSwitchCore_idle cfg inp true _ rfl]
  dsimp only [mkSwitchResult]
  rw [performSanityChecks_shape]
  dsimp only
  rw [performSanityChecksCore_idle cfg inp _ rfl]
  dsimp only
  obtain ⟨c5, hc5⟩ := rescueAttainPosition_shape cfg inp
    (ModuleState.mk RESCUE_IDLE RESCUE_HEALTHY _ _ _ _ _ _ _ _ _)
  rw [hc5]
  refine ⟨rfl, rfl, ?_⟩
  intro ha ho hn
  simp only [idleTasksCore_target, ha, ho, hn, sensorUpdateCore_currentAltitude]

/-- Claim C8 counterexample: a disarmed IDLE tick whose altitude estimate
is 500 cm leaves the stale target altitude 300 cm in place: the tick ends
in IDLE with failure = HEALTHY but targetAltitudeCm differs from
currentAltitudeCm. -/
theorem idle_disarmed_target_stale :
    (updateGPSRescueState gpsRescueConfigDefault inpC8 sC8).1.phase = RESCUE_IDLE ∧
    (updateGPSRescueState gpsRescueConfigDefault inpC8 sC8).1.failure = RESCUE_HEALTHY ∧
    (updateGPSRescueState gpsRescueConfigDefault inpC8 sC8).1.intent.targetAltitudeCm = 300 ∧
    (updateGPSRescueState gpsRescueConfigDefault inpC8 sC8).1.sensor.currentAltitudeCm = 500 ∧
    ¬ ((updateGPSRescueState gpsRescueConfigDefault inpC8 sC8).1.intent.targetAltitudeCm =
        ((updateGPSRescueState gpsRescueConfigDefault inpC8 sC8).1.sensor.currentAltitudeCm : ℚ)) := by
  decide

/-- Witness for idle_tick_invariants at a concrete input. -/
theorem idle_tick_invariants_witness :
    (updateGPSRescueState gpsRescueConfigDefault inputs0
      { state0 with newGPSData := true }).1.phase = RESCUE_IDLE ∧
    (updateGPSRescueState gpsRescueConfigDefault inputs0
      { state0 with newGPSData := true }).1.failure = RESCUE_HEALTHY ∧
    (inputs0.armed = true → inputs0.isAltitudeOffset = true →
      ({ state0 with newGPSData := true } : ModuleState).newGPSData = true →
      (updateGPSRescueState gpsRescueConfigDefault inputs0
        { state0 with newGPSData := true }).1.intent.targetAltitudeCm =
        ((updateGPSRescueState gpsRescueConfigDefault inputs0
          { state0 with newGPSData := true }).1.sensor.currentAltitudeCm : ℚ)) :=
  idle_tick_invariants gpsRescueConfigDefault inputs0
    { state0 with newGPSData := true } rfl

theorem rescuePhaseSwitchCore_landing_impact (cfg : gpsRescueConfig_t)
    (inp : ExternalInputs) (b : Bool) (t : ModuleState)
    (hp : t.phase = RESCUE_LANDING) (hacc : (2 : ℚ) < t.sensor.accMagnitude) :
    (rescuePhaseSwitchCore cfg inp b t).phase = RESCUE_COMPLETE ∧
    (rescuePhaseSwitchCore cfg inp b t).effects =
      { setArmingDisabledArmSwitch := true, disarmGpsRescue := true } ∧
    (rescuePhaseSwitchCore cfg inp b t).failure = t.failure := by
  unfold rescuePhaseSwitchCore
  simp only [hp, reduceCtorEq, if_false, if_true, ite_false, ite_true, reduceIte]
  rw [if_pos hacc]
  refine ⟨rfl, rfl, ?_⟩
  split <;> rfl

theorem performSanityChecksCore_phase_complete (cfg : gpsRescueConfig_t)
    (inp : ExternalInputs) (t : ModuleState)
    (hp : t.phase = RESCUE_COMPLETE) (hf : t.failure = RESCUE_HEALTHY) :
    (performSanityChecksCore cfg inp t).phase = RESCUE_COMPLETE := by
  unfold performSanityChecksCore sanityApplyPolicy sanityUpdateFailure
    sanityAltitudeChecks
  simp only [hp, hf, reduceCtorEq, if_false, if_true, ite_false, ite_true,
    reduceIte, ne_eq, not_true_eq_false, not_false_eq_true, or_self, false_or,
    or_false]
  repeat' split
  all_goals rfl

/-- Claim C6: in LANDING the accelerometer magnitude is refreshed on every
control tick (not only on new GPS samples), and a tick whose sample
exceeds 2 g disables arming via the arm switch, calls disarm with reason
GPS_RESCUE and ends the tick in COMPLETE. -/
theorem landing_impact_disarms (cfg : gpsRescueConfig_t) (inp : ExternalInputs)
    (s : ModuleState)
    (hphase : s.phase = RESCUE_LANDING)
    (hmode : inp.flightModeGpsRescue = true)
    (hacc : (2 : ℚ) < inp.accMagnitudeSample)
    (hfail : s.failure = RESCUE_HEALTHY) :
    (sensorUpdate cfg inp s).sensor.accMagnitude = inp.accMagnitudeSample ∧
    (updateGPSRescueState cfg inp s).2.setArmingDisabledArmSwitch = true ∧
    (updateGPSRescueState cfg inp s).2.disarmGpsRescue = true ∧
    (updateGPSRescueState cfg inp s).1.phase = RESCUE_COMPLETE := by
  have haccS : (2 : ℚ) < (sensorUpdate cfg inp s).sensor.accMagnitude := by
    rw [sensorUpdate_shape]
    dsimp only
    rw [sensorUpdateCore_newGPS_acc cfg inp s hphase]
    exact hacc
  refine ⟨?_, ?_⟩
  · rw [sensorUpdate_shape]
    dsimp only
    exact sensorUpdateCore_newGPS_acc cfg inp s hphase
  unfold updateGPSRescueState
  rw [if_neg (by simp [hmode]), if_neg (by simp [hphase])]
  dsimp only
  set T : ModuleState :=
    { (checkGPSRescueIsAvailable inp (sensorUpdate cfg inp s)).2 with
        isAvailable := (checkGPSRescueIsAvailable inp (sensorUpdate cfg inp s)).1 }
    with hTdef
  have hT1 : T.phase = RESCUE_LANDING := hphase
  have hT2 : (2 : ℚ) < T.sensor.accMagnitude := haccS
  have himp := rescuePhaseSwitchCore_landing_impact cfg inp true T hT1 hT2
  rw [rescuePhaseSwitch_shape]
  dsimp only
  rw [himp.2.1]
  refine ⟨rfl, rfl, ?_⟩
  rw [performSanityChecks_shape]
  have hswp : ({ T with
      phase := (rescuePhaseSwitchCore cfg inp true T).phase
      failure := (rescuePhaseSwitchCore cfg inp true T).failure
      intent := (rescuePhaseSwitchCore cfg inp true T).intent
      sensor := { T.sensor with
        maxAltitudeCm := (rescuePhaseSwitchCore cfg inp true T).maxAltitudeCm } }
        : ModuleState).phase = RESCUE_COMPLETE := himp.1
  have hswf : ({ T with
      phase := (rescuePhaseSwitchCore cfg inp true T).phase
      failure := (rescuePhaseSwitchCore cfg inp true T).failure
      intent := (rescuePhaseSwitchCore cfg inp true T).intent
      sensor := { T.sensor with
        maxAltitudeCm := (rescuePhaseSwitchCore cfg inp true T).maxAltitudeCm } }
        : ModuleState).failure = RESCUE_HEALTHY := by
    dsimp only
    rw [himp.2.2]
    exact hfail
  obtain ⟨c5, hc5⟩ := rescueAttainPosition_shape cfg inp
    (performSanityChecks cfg inp
      { T with
        phase := (rescuePhaseSwitchCore cfg inp true T).phase
        failure := (rescuePhaseSwitchCore cfg inp true T).failure
        intent := (rescuePhaseSwitchCore cfg inp true T).intent
        sensor := { T.sensor with
          maxAltitudeCm := (rescuePhaseSwitchCore cfg inp true T).maxAltitudeCm } })
  rw [performSanityChecks_shape] at hc5
  rw [hc5]
  dsimp only
  exact performSanityChecksCore_phase_complete cfg inp _ hswp hswf

/-- Witness for landing_impact_disarms at a concrete input. -/
theorem landing_impact_disarms_witness :
    (sensorUpdate gpsRescueConfigDefault inpC6 sC6).sensor.accMagnitude =
      inpC6.accMagnitudeSample ∧
    (updateGPSRescueState gpsRescueConfigDefault inpC6 sC6).2.setArmingDisabledArmSwitch = true ∧
    (updateGPSRescueState gpsRescueConfigDefault inpC6 sC6).2.disarmGpsRescue = true ∧
    (updateGPSRescueState gpsRescueConfigDefault inpC6 sC6).1.phase = RESCUE_COMPLETE :=
  landing_impact_disarms gpsRescueConfigDefault inpC6 sC6 rfl rfl (by decide) rfl

theorem sanityFlyHomeCheck_mag (sensorsMag useMag : Bool) (v : ℚ) (tv : ℕ)
    (sf : ℤ) (m : Bool) (f : rescueFailureState_e) (h : m = true) :
    (sanityFlyHomeCheck sensorsMag useMag v tv sf m f).2.1 = true := by
  unfold sanityFlyHomeCheck
  dsimp only
  repeat' split
  all_goals first | rfl | exact h

theorem performSanityChecksCore_mag (cfg : gpsRescueConfig_t)
    (inp : ExternalInputs) (s : ModuleState) (h : s.magForceDisable = true) :
    (performSanityChecksCore cfg inp s).magForceDisable = true := by
  unfold performSanityChecksCore
  dsimp only
  repeat' split
  all_goals first
    | exact h
    | exact sanityFlyHomeCheck_mag _ _ _ _ _ _ _ h

theorem rescueAttainPosition_magFrame (cfg : gpsRescueConfig_t)
    (inp : ExternalInputs) (s : ModuleState) :
    (rescueAttainPosition cfg inp s).magForceDisable = s.magForceDisable := by
  obtain ⟨c, hc⟩ := rescueAttainPosition_shape cfg inp s
  rw [hc]

theorem rescuePhaseSwitch_magFrame (cfg : gpsRescueConfig_t)
    (inp : ExternalInputs) (b : Bool) (s : ModuleState) :
    (rescuePhaseSwitch cfg inp b s).1.magForceDisable = s.magForceDisable := rfl

theorem checkGPSRescueIsAvailable_magFrame (inp : ExternalInputs)
    (s : ModuleState) :
    (checkGPSRescueIsAvailable inp s).2.magForceDisable = s.magForceDisable := rfl

theorem sensorUpdate_magFrame (cfg : gpsRescueConfig_t) (inp : ExternalInputs)
    (s : ModuleState) :
    (sensorUpdate cfg inp s).magForceDisable = s.magForceDisable := rfl

theorem updateGPSRescueState_mag (cfg : gpsRescueConfig_t)
    (inp : ExternalInputs) (s : ModuleState) (h : s.magForceDisable = true) :
    (updateGPSRescueState cfg inp s).1.magForceDisable = true := by
  unfold updateGPSRescueState
  dsimp only
  rw [rescueAttainPosition_magFrame, performSanityChecks_shape]
  dsimp only
  refine performSanityChecksCore_mag cfg inp _ ?_
  rw [rescuePhaseSwitch_magFrame]
  dsimp only
  rw [checkGPSRescueIsAvailable_magFrame, sensorUpdate_magFrame]
  split
  · exact h
  · split
    · rw [performSanityChecks_shape]
      dsimp only
      refine performSanityChecksCore_mag cfg inp _ ?_
      rw [rescueAttainPosition_magFrame]
      exact h
    · exact h

/-- Claim C10: magForceDisable is monotone over the life of the module:
once set true by the stall mitigation, no number of further ticks, over
any inputs, ever resets it to false; and while it is set,
gpsRescueDisableMag returns true whenever the phase lies in the rescue
range INITIALIZE .. LANDING. -/
theorem magForceDisable_monotone (cfg : gpsRescueConfig_t)
    (inps : List ExternalInputs) (s : ModuleState)
    (h : s.magForceDisable = true) :
    (inps.foldl (fun t i => (updateGPSRescueState cfg i t).1) s).magForceDisable = true ∧
    (1 ≤ phaseIndex (inps.foldl (fun t i => (updateGPSRescueState cfg i t).1) s).phase →
      phaseIndex (inps.foldl (fun t i => (updateGPSRescueState cfg i t).1) s).phase ≤ 6 →
      gpsRescueDisableMag cfg (inps.foldl (fun t i => (updateGPSRescueState cfg i t).1) s) = true) := by
  have hfold : ∀ (l : List ExternalInputs) (t : ModuleState), t.magForceDisable = true →
      (l.foldl (fun u i => (updateGPSRescueState cfg i u).1) t).magForceDisable = true := by
    intro l
    induction l with
    | nil => intro t ht; exact ht
    | cons i l ih =>
        intro t ht
        exact ih _ (updateGPSRescueState_mag cfg i t ht)
  refine ⟨hfold inps s h, ?_⟩
  intro h1 h6
  unfold gpsRescueDisableMag
  simp only [hfold inps s h, Bool.or_true, Bool.true_and]
  rw [decide_eq_true (by exact h1), decide_eq_true (by exact h6)]
  rfl

/-- Witness for magForceDisable_monotone at a concrete input. -/
theorem magForceDisable_monotone_witness :
    ([inputs0].foldl (fun t i => (updateGPSRescueState gpsRescueConfigDefault i t).1)
      sC10).magForceDisable = true ∧
    (1 ≤ phaseIndex ([inputs0].foldl
        (fun t i => (updateGPSRescueState gpsRescueConfigDefault i t).1) sC10).phase →
      phaseIndex ([inputs0].foldl
        (fun t i => (updateGPSRescueState gpsRescueConfigDefault i t).1) sC10).phase ≤ 6 →
      gpsRescueDisableMag gpsRescueConfigDefault
        ([inputs0].foldl (fun t i => (updateGPSRescueState gpsRescueConfigDefault i t).1)
          sC10) = true) :=
  magForceDisable_monotone gpsRescueConfigDefault [inputs0] sC10 rfl
